import Mathlib

/-!
Verification of the servo-driver core of `atmega-peripherals-rs`.

The embedding follows `src/avr-servo/src/avr_servo.rs` (the macro body of
`impl_servo!`) and the behaviourally identical concrete implementation in
`src/src/servo.rs`: the `ServoMode` enumeration, the prescale timing
constants, and the four operations `new`, `set_mode`, `get_mode` and
`set_rotation` acting on the timer/counter registers.

Machine integers are modelled as `Nat` with explicit reductions modulo
`2^32` (for Rust `u32` arithmetic) and `2^16` (for the `as u16` cast)
exactly where the Rust code performs the corresponding operations.
-/

namespace AvrServo

/-- Modes of operation available for a servo (`enum ServoMode`). -/
inductive ServoMode where
  /-- Prescale64: faster movement, 0.36 degrees resolution. -/
  | Fast
  /-- Prescale8: more precise movement, 0.045 degrees resolution. -/
  | Precise
deriving DecidableEq

/-- Clock select Prescale8 (`CS_8: u8 = 0b010`). -/
def CS_8 : Nat := 0b010

/-- Clock select Prescale64 (`CS_64: u8 = 0b011`). -/
def CS_64 : Nat := 0b011

/-- Counter value at 0.5 ms for Prescale8 (`PRESCALE8_SERVO_MIN: u16 = 999`). -/
def PRESCALE8_SERVO_MIN : Nat := 999

/-- Counter value at 2.5 ms for Prescale8 (`PRESCALE8_SERVO_MAX: u16 = 4999`). -/
def PRESCALE8_SERVO_MAX : Nat := 4999

/-- Counter value at 20 ms for Prescale8 (`PRESCALE8_PWM_TOP: u16 = 39999`). -/
def PRESCALE8_PWM_TOP : Nat := 39999

/-- Counter value at 0.5 ms for Prescale64 (`PRESCALE64_SERVO_MIN: u16 = 124`). -/
def PRESCALE64_SERVO_MIN : Nat := 124

/-- Counter value at 2.5 ms for Prescale64 (`PRESCALE64_SERVO_MAX: u16 = 624`). -/
def PRESCALE64_SERVO_MAX : Nat := 624

/-- Counter value at 20 ms for Prescale64 (`PRESCALE64_PWM_TOP: u16 = 4999`). -/
def PRESCALE64_PWM_TOP : Nat := 4999

/-- FastPWM (mode 14) WGM bits 0:1 written to TCCRxA (`WGM01: u8 = 0b10`). -/
def WGM01 : Nat := 0b10

/-- FastPWM (mode 14) WGM bits 2:3 written to TCCRxB (`WGM23: u8 = 0b11`). -/
def WGM23 : Nat := 0b11

/-- Output compare mode for FastPWM (`COM1A: u8 = 0b10`). -/
def COM1A : Nat := 0b10

/-- Modulus of Rust `u32` arithmetic. -/
def U32_MOD : Nat := 4294967296

/-- Modulus of the Rust `as u16` cast. -/
def U16_MOD : Nat := 65536

/-- State of the hardware timer/counter registers touched by the driver:
the COM and WGM 0:1 fields of TCCRxA, the WGM 2:3 and clock-select fields
of TCCRxB, the period-top register ICRx, and the output-compare (duty)
register OCRxy of the bound sub-channel. -/
structure TimerState where
  com : Nat
  wgm01 : Nat
  wgm23 : Nat
  cs : Nat
  icr : Nat
  ocr : Nat

/-- The `ServoPin` struct: a reference to the timer/counter state and the
currently active `ServoMode` (the `PhantomData` pin marker carries no
runtime state). -/
structure ServoPin where
  tc : TimerState
  mode : ServoMode

/-- The arithmetic of `set_rotation` (`avr_servo.rs` lines 194-204,
`servo.rs` lines 216-227): select `(pwm_min, pwm_max)` from the active
mode, then compute
`(pwm_min + (range * degrees as u32 * 10) / (180 * 10)) as u16`
in `u32` arithmetic. `degrees` is the `u8` argument, so callers have
`degrees < 256`. Each `u32` operation reduces modulo `2^32` and the final
`as u16` cast reduces modulo `2^16`, exactly as in Rust release
semantics. -/
def set_rotation_val (mode : ServoMode) (degrees : Nat) : Nat :=
  let pwm_min : Nat := match mode with
    | ServoMode.Fast => PRESCALE64_SERVO_MIN
    | ServoMode.Precise => PRESCALE8_SERVO_MIN
  let pwm_max : Nat := match mode with
    | ServoMode.Fast => PRESCALE64_SERVO_MAX
    | ServoMode.Precise => PRESCALE8_SERVO_MAX
  let range : Nat := (pwm_max - pwm_min) % U32_MOD
  ((pwm_min + (range * degrees % U32_MOD * 10 % U32_MOD) / (180 * 10)) % U32_MOD) % U16_MOD

/-- The `u32` setpoint of `set_rotation` before the `as u16` cast, used to
express that the cast never truncates. -/
def set_rotation_setpoint_u32 (mode : ServoMode) (degrees : Nat) : Nat :=
  let pwm_min : Nat := match mode with
    | ServoMode.Fast => PRESCALE64_SERVO_MIN
    | ServoMode.Precise => PRESCALE8_SERVO_MIN
  let pwm_max : Nat := match mode with
    | ServoMode.Fast => PRESCALE64_SERVO_MAX
    | ServoMode.Precise => PRESCALE8_SERVO_MAX
  let range : Nat := (pwm_max - pwm_min) % U32_MOD
  (pwm_min + (range * degrees % U32_MOD * 10 % U32_MOD) / (180 * 10)) % U32_MOD

/-- The `new` constructor (`avr_servo.rs` lines 156-174, `servo.rs` lines
170-192): reset the control registers, write COM1A and WGM01 to TCCRxA,
WGM23 and prescale-64 clock select to TCCRxB, `PRESCALE64_PWM_TOP` to
ICRx, `PRESCALE64_SERVO_MIN` to the bound OCRxy, and return a `ServoPin`
in `ServoMode::Fast`. -/
def ServoPin.new : ServoPin :=
  { tc := { com := COM1A, wgm01 := WGM01, wgm23 := WGM23, cs := CS_64,
            icr := PRESCALE64_PWM_TOP, ocr := PRESCALE64_SERVO_MIN },
    mode := ServoMode.Fast }

/-- The `set_mode` operation (`avr_servo.rs` lines 176-185, `servo.rs`
lines 194-204): store the new mode, select `(top, min, cs)` from it,
modify only the clock-select field of TCCRxB, and write the period-top
and duty registers. -/
def ServoPin.set_mode (s : ServoPin) (mode : ServoMode) : ServoPin :=
  let top : Nat := match mode with
    | ServoMode.Fast => PRESCALE64_PWM_TOP
    | ServoMode.Precise => PRESCALE8_PWM_TOP
  let mn : Nat := match mode with
    | ServoMode.Fast => PRESCALE64_SERVO_MIN
    | ServoMode.Precise => PRESCALE8_SERVO_MIN
  let cs : Nat := match mode with
    | ServoMode.Fast => CS_64
    | ServoMode.Precise => CS_8
  { mode := mode,
    tc := { s.tc with cs := cs, icr := top, ocr := mn } }

/-- The `get_mode` accessor (`avr_servo.rs` lines 187-192, `servo.rs`
lines 210-215): a pure read of `self.mode` rendered as a string. -/
def ServoPin.get_mode (s : ServoPin) : String :=
  match s.mode with
  | ServoMode.Fast => "ServoMode::Fast"
  | ServoMode.Precise => "ServoMode::Precise"

/-- The `set_rotation` operation (`avr_servo.rs` lines 194-204, `servo.rs`
lines 216-227): compute the setpoint from the active mode, write it to the
bound sub-channel duty register, and return it. -/
def ServoPin.set_rotation (s : ServoPin) (degrees : Nat) : ServoPin × Nat :=
  let setpoint := set_rotation_val s.mode degrees
  ({ s with tc := { s.tc with ocr := setpoint } }, setpoint)

/-- The spec's Timing Table `dutyMin` column (spec section 4.1):
124 for Fast, 999 for Precise. -/
def dutyMin : ServoMode → Nat
  | ServoMode.Fast => 124
  | ServoMode.Precise => 999

/-- The spec's Timing Table `dutyMax` column (spec section 4.1):
624 for Fast, 4999 for Precise. -/
def dutyMax : ServoMode → Nat
  | ServoMode.Fast => 624
  | ServoMode.Precise => 4999

/-- The spec's Timing Table `periodTop` column (spec section 4.1):
4999 for Fast, 39999 for Precise. -/
def periodTop : ServoMode → Nat
  | ServoMode.Fast => 4999
  | ServoMode.Precise => 39999

/-- The spec's Timing Table `clockSelectCode` column (spec section 4.1):
0b011 for Fast, 0b010 for Precise. -/
def clockSelectCode : ServoMode → Nat
  | ServoMode.Fast => 0b011
  | ServoMode.Precise => 0b010

/-- The spec's `setRotation` formula (spec section 4.2):
`dutyMin + (range * degrees) / 180` in plain integer (floor) arithmetic. -/
def setRotationSpec (mode : ServoMode) (degrees : Nat) : Nat :=
  dutyMin mode + (dutyMax mode - dutyMin mode) * degrees / 180

set_option maxRecDepth 100000

/-- Helper: within the `u8` domain the `u32` arithmetic of `set_rotation`
never wraps, so the computed value equals the plain natural-number
formula `dutyMin + range * degrees * 10 / 1800`. -/
lemma set_rotation_val_eq_formula (m : ServoMode) :
    ∀ d < 256, set_rotation_val m d =
      dutyMin m + (dutyMax m - dutyMin m) * d * 10 / 1800 := by
  cases m <;> decide

/-- Helper: `set_rotation` returns exactly the value computed by
`set_rotation_val` on the channel's active mode and writes it to the
bound duty register. -/
lemma set_rotation_def (s : ServoPin) (d : Nat) :
    (s.set_rotation d).2 = set_rotation_val s.mode d ∧
      (s.set_rotation d).1.tc.ocr = (s.set_rotation d).2 :=
  ⟨rfl, rfl⟩

/-- Helper: for `degrees ≤ 180` the computed tick value lies between the
active mode's `dutyMin` and `dutyMax`. -/
lemma set_rotation_val_bounds (m : ServoMode) :
    ∀ d ≤ 180, dutyMin m ≤ set_rotation_val m d ∧
      set_rotation_val m d ≤ dutyMax m := by
  cases m <;> decide

/-- C1: for every channel and every degrees input in [0, 180], in both
Fast and Precise modes, the tick value computed and returned by
`set_rotation` (which is also the value written to the duty register)
satisfies `dutyMin(mode) ≤ value ≤ dutyMax(mode)`: between 124 and 624 in
Fast mode, and between 999 and 4999 in Precise mode. -/
theorem set_rotation_within_duty_bounds (s : ServoPin) (d : Nat) (hd : d ≤ 180) :
    dutyMin s.mode ≤ (s.set_rotation d).2 ∧
      (s.set_rotation d).2 ≤ dutyMax s.mode ∧
      (s.set_rotation d).1.tc.ocr = (s.set_rotation d).2 := by
  obtain ⟨hb1, hb2⟩ := set_rotation_val_bounds s.mode d hd
  exact ⟨hb1, hb2, rfl⟩

/-- Witness for C1 at the channel fresh from `new` and 90 degrees. -/
theorem set_rotation_within_duty_bounds_witness :
    (90 ≤ 180) ∧
      (dutyMin ServoPin.new.mode ≤ (ServoPin.new.set_rotation 90).2 ∧
        (ServoPin.new.set_rotation 90).2 ≤ dutyMax ServoPin.new.mode ∧
        (ServoPin.new.set_rotation 90).1.tc.ocr = (ServoPin.new.set_rotation 90).2) :=
  ⟨by decide, set_rotation_within_duty_bounds ServoPin.new 90 (by decide)⟩

/-- C2: `set_rotation` returns exactly the active mode's `dutyMin` at 0
degrees and exactly its `dutyMax` at 180 degrees, with the specified spot
values: Fast 124/374/624 at 0/90/180 degrees, Precise 999/2999/4999 at
0/90/180 degrees (Precise reached from a freshly configured Fast channel
via `set_mode`). -/
theorem set_rotation_spot_values :
    (ServoPin.new.set_rotation 0).2 = 124 ∧
      (ServoPin.new.set_rotation 90).2 = 374 ∧
      (ServoPin.new.set_rotation 180).2 = 624 ∧
      ((ServoPin.new.set_mode ServoMode.Precise).set_rotation 0).2 = 999 ∧
      ((ServoPin.new.set_mode ServoMode.Precise).set_rotation 90).2 = 2999 ∧
      ((ServoPin.new.set_mode ServoMode.Precise).set_rotation 180).2 = 4999 ∧
      (ServoPin.new.set_rotation 0).2 = dutyMin ServoMode.Fast ∧
      (ServoPin.new.set_rotation 180).2 = dutyMax ServoMode.Fast ∧
      ((ServoPin.new.set_mode ServoMode.Precise).set_rotation 0).2 = dutyMin ServoMode.Precise ∧
      ((ServoPin.new.set_mode ServoMode.Precise).set_rotation 180).2 = dutyMax ServoMode.Precise := by
  decide

/-- C3: for every `u8` degrees value and both modes, the implemented
expression `pwm_min + (range * degrees * 10) / (180 * 10)` evaluated in
`u32` arithmetic equals the spec's formula
`dutyMin + (range * degrees) / 180` under integer floor division. -/
theorem set_rotation_refines_spec_formula (m : ServoMode) :
    ∀ d < 256, set_rotation_val m d = setRotationSpec m d := by
  cases m <;> decide

/-- Witness for C3 at Fast mode and 77 degrees. -/
theorem set_rotation_refines_spec_formula_witness :
    (77 < 256) ∧ set_rotation_val ServoMode.Fast 77 = setRotationSpec ServoMode.Fast 77 :=
  ⟨by decide, set_rotation_refines_spec_formula ServoMode.Fast 77 (by decide)⟩

/-- C4: `set_rotation` never panics or wraps for any `u8` degrees input:
the subtraction `pwm_max - pwm_min` cannot underflow, the 32-bit
intermediate product `range * degrees * 10` is at most 10,200,000 and
cannot overflow `u32`, and the computed value equals the plain
natural-number formula, so for degrees above 180 the result extrapolates
past `dutyMax` by that same formula rather than crashing or wrapping. -/
theorem set_rotation_no_overflow (m : ServoMode) :
    ∀ d < 256, dutyMin m ≤ dutyMax m ∧
      (dutyMax m - dutyMin m) * d * 10 ≤ 10200000 ∧
      (dutyMax m - dutyMin m) * d * 10 < U32_MOD ∧
      set_rotation_val m d =
        dutyMin m + (dutyMax m - dutyMin m) * d * 10 / (180 * 10) := by
  cases m <;> decide

/-- Witness for C4 in Precise mode at the out-of-range input 255. -/
theorem set_rotation_no_overflow_witness :
    (255 < 256) ∧
      (dutyMin ServoMode.Precise ≤ dutyMax ServoMode.Precise ∧
        (dutyMax ServoMode.Precise - dutyMin ServoMode.Precise) * 255 * 10 ≤ 10200000 ∧
        (dutyMax ServoMode.Precise - dutyMin ServoMode.Precise) * 255 * 10 < U32_MOD ∧
        set_rotation_val ServoMode.Precise 255 =
          dutyMin ServoMode.Precise +
            (dutyMax ServoMode.Precise - dutyMin ServoMode.Precise) * 255 * 10 / (180 * 10)) :=
  ⟨by decide, set_rotation_no_overflow ServoMode.Precise 255 (by decide)⟩

/-- C5: for every fixed mode and every pair of degree values `d1 < d2`,
both in [0, 180], `set_rotation(d1) ≤ set_rotation(d2)`: the
degree-to-tick mapping is non-decreasing. -/
theorem set_rotation_monotone (m : ServoMode) (d1 d2 : Nat)
    (h12 : d1 < d2) (h180 : d2 ≤ 180) :
    set_rotation_val m d1 ≤ set_rotation_val m d2 := by
  rw [set_rotation_val_eq_formula m d1 (by omega),
    set_rotation_val_eq_formula m d2 (by omega)]
  have hmul : (dutyMax m - dutyMin m) * d1 * 10 ≤ (dutyMax m - dutyMin m) * d2 * 10 :=
    Nat.mul_le_mul_right 10 (Nat.mul_le_mul_left _ (Nat.le_of_lt h12))
  exact Nat.add_le_add_left (Nat.div_le_div_right hmul) _

/-- Witness for C5 in Fast mode at 10 and 20 degrees. -/
theorem set_rotation_monotone_witness :
    (10 < 20) ∧ (20 ≤ 180) ∧
      set_rotation_val ServoMode.Fast 10 ≤ set_rotation_val ServoMode.Fast 20 :=
  ⟨by decide, by decide, set_rotation_monotone ServoMode.Fast 10 20 (by decide) (by decide)⟩

/-- C6: after `set_mode m` on any channel (in particular a channel created
in Fast mode switched to Precise, or back), every subsequent
`set_rotation` call computes with mode `m`'s table entry, with no
intervening `new` required: the returned and written value is
`set_rotation_val m degrees`. -/
theorem set_mode_governs_set_rotation (s : ServoPin) (m : ServoMode) (d : Nat) :
    ((s.set_mode m).set_rotation d).2 = set_rotation_val m d ∧
      ((s.set_mode m).set_rotation d).1.tc.ocr = set_rotation_val m d :=
  ⟨rfl, rfl⟩

/-- C7: `get_mode` is a pure accessor (a function of the channel state
returning a string, with no state output), its result reflects the most
recent `set_mode` call, and immediately after `new` it reports Fast. -/
theorem get_mode_reflects_mode :
    ServoPin.new.get_mode = "ServoMode::Fast" ∧
      ServoPin.new.mode = ServoMode.Fast ∧
      ∀ s : ServoPin,
        (s.set_mode ServoMode.Fast).get_mode = "ServoMode::Fast" ∧
          (s.set_mode ServoMode.Precise).get_mode = "ServoMode::Precise" :=
  ⟨rfl, rfl, fun _ => ⟨rfl, rfl⟩⟩

/-- C8: `set_rotation` writes only the bound sub-channel's duty register:
the channel mode, the timer's clock-select field, the period-top
register, and the COM/WGM fields are unchanged, so `get_mode` returns the
same result before and after, and the duty register holds the returned
value. -/
theorem set_rotation_frame (s : ServoPin) (d : Nat) :
    (s.set_rotation d).1.mode = s.mode ∧
      (s.set_rotation d).1.tc.cs = s.tc.cs ∧
      (s.set_rotation d).1.tc.icr = s.tc.icr ∧
      (s.set_rotation d).1.tc.com = s.tc.com ∧
      (s.set_rotation d).1.tc.wgm01 = s.tc.wgm01 ∧
      (s.set_rotation d).1.tc.wgm23 = s.tc.wgm23 ∧
      (s.set_rotation d).1.get_mode = s.get_mode ∧
      (s.set_rotation d).1.tc.ocr = (s.set_rotation d).2 :=
  ⟨rfl, rfl, rfl, rfl, rfl, rfl, rfl, rfl⟩

/-- C9: after `new` and after every `set_mode m`, the timer registers
agree with the then-active mode's timing entry: the clock-select field
holds the mode's code (0b011 Fast, 0b010 Precise), the period-top
register holds its `periodTop` (4999 Fast, 39999 Precise), and the duty
register holds its `dutyMin` (124 Fast, 999 Precise), placing the channel
at the 0-degree position; `new` additionally establishes mode = Fast. -/
theorem init_and_set_mode_registers :
    (ServoPin.new.mode = ServoMode.Fast ∧
        ServoPin.new.tc.cs = clockSelectCode ServoMode.Fast ∧
        ServoPin.new.tc.icr = periodTop ServoMode.Fast ∧
        ServoPin.new.tc.ocr = dutyMin ServoMode.Fast) ∧
      ∀ (s : ServoPin) (m : ServoMode),
        (s.set_mode m).mode = m ∧
          (s.set_mode m).tc.cs = clockSelectCode m ∧
          (s.set_mode m).tc.icr = periodTop m ∧
          (s.set_mode m).tc.ocr = dutyMin m := by
  refine ⟨⟨rfl, rfl, rfl, rfl⟩, fun s m => ?_⟩
  cases m <;> exact ⟨rfl, rfl, rfl, rfl⟩

/-- C10: for every `u8` degrees input, including unclamped values above
180, the tick value computed by `set_rotation` never exceeds the active
mode's period-top value: at most 832 < 4999 in Fast mode and at most
6665 < 39999 in Precise mode, and the `u32` setpoint equals its `u16`
cast, so the cast never truncates. -/
theorem set_rotation_below_period_top :
    ∀ d < 256,
      set_rotation_val ServoMode.Fast d ≤ 832 ∧
        set_rotation_val ServoMode.Precise d ≤ 6665 ∧
        set_rotation_val ServoMode.Fast d < periodTop ServoMode.Fast ∧
        set_rotation_val ServoMode.Precise d < periodTop ServoMode.Precise ∧
        set_rotation_val ServoMode.Fast d = set_rotation_setpoint_u32 ServoMode.Fast d ∧
        set_rotation_val ServoMode.Precise d = set_rotation_setpoint_u32 ServoMode.Precise d := by
  decide

/-- Witness for C10 at the out-of-range input 255. -/
theorem set_rotation_below_period_top_witness :
    (255 < 256) ∧
      (set_rotation_val ServoMode.Fast 255 ≤ 832 ∧
        set_rotation_val ServoMode.Precise 255 ≤ 6665 ∧
        set_rotation_val ServoMode.Fast 255 < periodTop ServoMode.Fast ∧
        set_rotation_val ServoMode.Precise 255 < periodTop ServoMode.Precise ∧
        set_rotation_val ServoMode.Fast 255 = set_rotation_setpoint_u32 ServoMode.Fast 255 ∧
        set_rotation_val ServoMode.Precise 255 = set_rotation_setpoint_u32 ServoMode.Precise 255) :=
  ⟨by decide, set_rotation_below_period_top 255 (by decide)⟩

end AvrServo
